import Mathlib

/-!
Shallow embedding of the frame-synchronized annotation correlation and
round-trip transformation logic of two scripts:

* src/top_down_pose_tracking_input.py (pose inference plus round trip)
* src/vis_pose_tracking_result.py (visualization-only replay)

Python dictionaries with optional keys are embedded as structures with
Option fields.  A Python key read that can raise KeyError, and a read of
a possibly-unbound local variable (NameError / UnboundLocalError), are
embedded as Except Unit.  Python floats are embedded as exact rationals;
round(x, 3) is embedded by round3 below (Python rounds half to even at
the third decimal while the embedding rounds half away from the lower
value; no theorem below depends on the value at an exact tie).
-/

namespace PoseTrack

/-- Python round(q, 3): the nearest multiple of 1/1000. -/
def round3 (q : ℚ) : ℚ := ((round (q * 1000) : ℤ) : ℚ) / 1000

/-- The nested "attributes" object of an input record: each key optional. -/
structure Attributes where
  track_id : Option Int
  image_id : Option Int
  occluded : Option Int
  activity : Option String
deriving DecidableEq, Repr

/-- Input bbox, COCO style: data["bbox"][0..3] = (x, y, width, height). -/
structure BboxXYWH where
  x : ℚ
  y : ℚ
  w : ℚ
  h : ℚ
deriving DecidableEq, Repr

/-- One element of json_data["annotations"].  category_id and bbox are
always read unguarded by the scripts, so they are mandatory; every other
key is probed with "in" / .get and is therefore optional. -/
structure AnnotationRecord where
  category_id : Int
  bbox : BboxXYWH
  frame_id : Option Int
  image_id : Option Int
  track_id : Option Int
  occluded : Option Int
  activity : Option String
  attributes : Option Attributes
  keypoints : Option (List ℚ)
deriving DecidableEq, Repr

/-- One element of json_data["categories"]. -/
structure Category where
  id : Int
  name : String
deriving DecidableEq, Repr

/-- The loaded input document (the parts the scripts read). -/
structure Document where
  categories : List Category
  annotations : List AnnotationRecord
deriving DecidableEq, Repr

/-- Inner loop of lines 155-159 of top_down_pose_tracking_input.py (and
lines 101-105 of vis_pose_tracking_result.py): scan the categories list,
overwriting this_person_cat_id at every entry named "person".  The
accumulator none embeds the variable being unbound. -/
def scanPersonId (cats : List Category) (acc : Option Int) : Option Int :=
  cats.foldl (fun a c => if c.name = "person" then some c.id else a) acc

/-- Lines 155-159: the outer loop runs the category scan once per element
of the annotations list (the loop variable shadows, only the iteration
count of the outer loop matters).  With an empty annotations list the
inner scan never runs and this_person_cat_id stays unbound (none). -/
def resolvePersonCategoryId (doc : Document) : Option Int :=
  doc.annotations.foldl (fun acc _ => scanPersonId doc.categories acc) none

/-- Track id of the non-person passthrough (line 167):
data["track_id"] if "track_id" in data else data["attributes"]["track_id"];
none embeds the KeyError raised when both lookups miss. -/
def passTrackId (r : AnnotationRecord) : Option Int :=
  match r.track_id with
  | some t => some t
  | none => r.attributes.bind (fun a => a.track_id)

/-- Frame id of the non-person passthrough (line 168):
data["frame_id"] if "frame_id" in data else data["attributes"]["image_id"];
note the fallback reads attributes.image_id without subtracting one. -/
def passFrameId (r : AnnotationRecord) : Option Int :=
  match r.frame_id with
  | some f => some f
  | none => r.attributes.bind (fun a => a.image_id)

/-- Output record built by the non-person passthrough (lines 166-172). -/
structure PassAnn where
  track_id : Int
  frame_id : Int
  bbox : BboxXYWH
  occluded : Int
  category_id : Int
deriving DecidableEq, Repr

/-- Lines 166-172: build one passthrough output record; a missing key on
either fallback chain raises KeyError, embedded as Except.error. -/
def mkPassAnn (r : AnnotationRecord) : Except Unit PassAnn :=
  match passTrackId r, passFrameId r with
  | some t, some f =>
      Except.ok { track_id := t, frame_id := f, bbox := r.bbox,
                  occluded := r.occluded.getD 0, category_id := r.category_id }
  | _, _ => Except.error ()

/-- Lines 162-173: the passthrough loop.  personCatId = none embeds
this_person_cat_id being unbound; the comparison on line 164 then raises
NameError as soon as the annotations list is nonempty. -/
def passthroughLoop (personCatId : Option Int) :
    List AnnotationRecord → Except Unit (List PassAnn)
  | [] => Except.ok []
  | r :: rest =>
    match personCatId with
    | none => Except.error ()
    | some pid =>
      if r.category_id = pid then passthroughLoop personCatId rest
      else do
        let d ← mkPassAnn r
        let rest2 ← passthroughLoop personCatId rest
        Except.ok (d :: rest2)

/-- Bbox in xyxy form with a confidence score, as built for the pose
stage: (x1, y1, x2, y2, score). -/
structure BboxXYXYC where
  x1 : ℚ
  y1 : ℚ
  x2 : ℚ
  y2 : ℚ
  score : ℚ
deriving DecidableEq, Repr

/-- The canonical person dict built by the correlator (lines 194-211 of
top_down_pose_tracking_input.py, lines 125-141 of the vis script).
track_id and occluded keys stay absent (none) when no source field
provides them; activity is initialized to "". -/
structure PersonObs where
  activity : String
  track_id : Option Int
  occluded : Option Int
  bbox : BboxXYXYC
  category_id : Int
deriving DecidableEq, Repr

/-- Lines 194-211: normalize one matching record into a person dict.
Direct keys are probed before the nested attributes ones; the nested
occluded value goes through int(), the identity on our Int embedding;
bbox (x, y, w, h) becomes (x, y, x+w, y+h, 1.0). -/
def normalizePerson (r : AnnotationRecord) : PersonObs where
  activity :=
    match r.activity with
    | some s => s
    | none => (r.attributes.bind (fun a => a.activity)).getD ""
  track_id :=
    match r.track_id with
    | some t => some t
    | none => r.attributes.bind (fun a => a.track_id)
  occluded :=
    match r.occluded with
    | some o => some o
    | none => r.attributes.bind (fun a => a.occluded)
  bbox :=
    { x1 := r.bbox.x, y1 := r.bbox.y,
      x2 := r.bbox.x + r.bbox.w, y2 := r.bbox.y + r.bbox.h, score := 1 }
  category_id := 1

/-- Lines 185-188: resolve the frame index of one record when a frame
index key is present: frame_id as-is, else image_id minus one. -/
def resolveFrameIndex (r : AnnotationRecord) : Option Int :=
  match r.frame_id with
  | some f => some f
  | none =>
    match r.image_id with
    | some i => some (i - 1)
    | none => none

/-- Lines 184-211: the per-frame correlator loop.  The local variable
frame_json_id is only assigned when a frame index key is present, so it
carries over STALE from the previous record otherwise (the fj
accumulator); reading it while still unbound (none) raises NameError,
embedded as Except.error. -/
def selectPersonObsAux (personCatId frameId : Int) :
    Option Int → List AnnotationRecord → Except Unit (List PersonObs)
  | _, [] => Except.ok []
  | fj, r :: rest =>
    let fj2 :=
      match resolveFrameIndex r with
      | some f => some f
      | none => fj
    match fj2 with
    | none => Except.error ()
    | some f =>
      if frameId = f then
        if r.category_id = personCatId then do
          let rest2 ← selectPersonObsAux personCatId frameId fj2 rest
          Except.ok (normalizePerson r :: rest2)
        else selectPersonObsAux personCatId frameId fj2 rest
      else selectPersonObsAux personCatId frameId fj2 rest

/-- The correlator started at the top of a frame iteration, where
frame_json_id is still unbound on the very first record of the run. -/
def selectPersonObs (personCatId frameId : Int)
    (anns : List AnnotationRecord) : Except Unit (List PersonObs) :=
  selectPersonObsAux personCatId frameId none anns

/-- One result of the external pose stage, as read by the encoder loop
(lines 242-257): keypoints as (x, y, confidence) triples, bbox xyxy with
score, occluded and activity read with .get (absent embeds as none). -/
structure PoseResult where
  track_id : Int
  category_id : Int
  bbox : BboxXYXYC
  keypoints : List (ℚ × ℚ × ℚ)
  occluded : Option Int
  activity : Option String
deriving DecidableEq, Repr

/-- Flatten a list of triples into consecutive values, the effect of
numpy flatten().tolist() on an N by 3 keypoint array. -/
def flattenTriples {α : Type} (ts : List (α × α × α)) : List α :=
  ts.flatMap (fun t => [t.1, t.2.1, t.2.2])

/-- The person output annotation record (the dict_obj of lines 248-256):
bbox stored as the 4-list [x, y, width, height]. -/
structure OutputAnn where
  track_id : Int
  frame_id : Int
  keypoints : List ℚ
  bbox : List ℚ
  occluded : Int
  activity : Option String
  category_id : Int
deriving DecidableEq, Repr

/-- Lines 243-256: the dict_obj built when category_id == 1.  Keypoints
are flattened and each value rounded to 3 decimals; the bbox origin is
copied unrounded while width and height are round3 of the differences;
occluded defaults to 0 via .get; activity passes through .get. -/
def mkPersonOutput (frameId : Int) (p : PoseResult) : OutputAnn where
  track_id := p.track_id
  frame_id := frameId
  keypoints := (flattenTriples p.keypoints).map round3
  bbox := [p.bbox.x1, p.bbox.y1,
           round3 (p.bbox.x2 - p.bbox.x1), round3 (p.bbox.y2 - p.bbox.y1)]
  occluded := p.occluded.getD 0
  activity := p.activity
  category_id := 1

/-- Lines 242-257: the encoder loop.  dict_obj is rebuilt only under the
category_id == 1 test, but the append on line 257 sits OUTSIDE that test,
so every iteration appends the current dict_obj — a stale copy when the
result is not a person, and UnboundLocalError (Except.error) when no
dict_obj was ever built.  The accumulator carries the current dict_obj. -/
def encodeFrameAux (frameId : Int) :
    Option OutputAnn → List PoseResult → Except Unit (List OutputAnn)
  | _, [] => Except.ok []
  | dictObj, p :: rest =>
    let dictObj2 := if p.category_id = 1 then some (mkPersonOutput frameId p) else dictObj
    match dictObj2 with
    | none => Except.error ()
    | some d => do
      let rest2 ← encodeFrameAux frameId dictObj2 rest
      Except.ok (d :: rest2)

/-- The encoder loop for one frame of a run in which no earlier iteration
(and no passthrough entry) has bound dict_obj yet. -/
def encodeFrame (frameId : Int) (results : List PoseResult) :
    Except Unit (List OutputAnn) :=
  encodeFrameAux frameId none results

/-- Lines 21-23 of vis_pose_tracking_result.py: zip(a, a, a) over a
single shared iterator pulls three consecutive elements per tuple and
stops as soon as a pull fails, so trailing leftovers are dropped. -/
def threewise {α : Type} : List α → List (α × α × α)
  | a :: b :: c :: rest => (a, b, c) :: threewise rest
  | _ => []

/-!  Theorems settling the claims.  -/

/-- C2: a record carrying a frame_id resolves to that frame_id
unchanged; a record carrying only an image_id resolves to
image_id minus one. -/
theorem frame_index_resolution (r : AnnotationRecord) :
    (∀ f, r.frame_id = some f → resolveFrameIndex r = some f) ∧
    (∀ i, r.frame_id = none → r.image_id = some i →
      resolveFrameIndex r = some (i - 1)) := by
  constructor
  · intro f hf
    simp [resolveFrameIndex, hf]
  · intro i hf hi
    simp [resolveFrameIndex, hf, hi]

/-- Witness for C2 at a concrete record carrying frame_id = 7 next to
image_id = 3 (frame_id wins, unchanged), and at one carrying only
image_id = 3 (resolves to 2). -/
theorem frame_index_resolution_witness :
    (let r : AnnotationRecord :=
      { category_id := 1, bbox := { x := 0, y := 0, w := 1, h := 1 },
        frame_id := some 7, image_id := some 3, track_id := none,
        occluded := none, activity := none, attributes := none,
        keypoints := none }
     resolveFrameIndex r = some 7) ∧
    (let r : AnnotationRecord :=
      { category_id := 1, bbox := { x := 0, y := 0, w := 1, h := 1 },
        frame_id := none, image_id := some 3, track_id := none,
        occluded := none, activity := none, attributes := none,
        keypoints := none }
     resolveFrameIndex r = some 2) :=
  ⟨(frame_index_resolution _).1 7 rfl, (frame_index_resolution _).2 3 rfl rfl⟩

/-- C5: when a direct field and its nested attributes equivalent are
both present, normalization takes the direct value, for each of
track_id, occluded and activity. -/
theorem direct_field_precedence (r : AnnotationRecord) (a : Attributes)
    (ha : r.attributes = some a) :
    (∀ t u, r.track_id = some t → a.track_id = some u →
      (normalizePerson r).track_id = some t) ∧
    (∀ o u, r.occluded = some o → a.occluded = some u →
      (normalizePerson r).occluded = some o) ∧
    (∀ s u, r.activity = some s → a.activity = some u →
      (normalizePerson r).activity = s) := by
  refine ⟨?_, ?_, ?_⟩
  · intro t u ht hu
    simp [normalizePerson, ht]
  · intro o u ho hu
    simp [normalizePerson, ho]
  · intro s u hs hu
    simp [normalizePerson, hs]

/-- Witness for C5 at a record where every direct field differs from its
nested counterpart: the direct values 4, 1 and "walk" win. -/
theorem direct_field_precedence_witness :
    (let a : Attributes :=
      { track_id := some 9, image_id := none, occluded := some 0,
        activity := some "run" }
     let r : AnnotationRecord :=
      { category_id := 1, bbox := { x := 0, y := 0, w := 1, h := 1 },
        frame_id := some 0, image_id := none, track_id := some 4,
        occluded := some 1, activity := some "walk",
        attributes := some a, keypoints := none }
     (normalizePerson r).track_id = some 4 ∧
     (normalizePerson r).occluded = some 1 ∧
     (normalizePerson r).activity = "walk") :=
  ⟨(direct_field_precedence _ _ rfl).1 4 9 rfl rfl,
   (direct_field_precedence _ _ rfl).2.1 1 0 rfl rfl,
   (direct_field_precedence _ _ rfl).2.2 "walk" "run" rfl rfl⟩

/-- C7: every encoded person output annotation carries the bbox
[x, y, width, height] with width and height rounded to 3 decimals while
the origin coordinates x1, y1 of the pose result pass through unchanged,
with no rounding applied to them. -/
theorem encoded_bbox_origin_unrounded (frameId : Int) (p : PoseResult) :
    (mkPersonOutput frameId p).bbox =
      [p.bbox.x1, p.bbox.y1,
       round3 (p.bbox.x2 - p.bbox.x1), round3 (p.bbox.y2 - p.bbox.y1)] := rfl

/-- C6: composing the correlator's bbox conversion (x, y, w, h) to
(x, y, x+w, y+h) with the encoder's conversion back to
(x, y, round3 (x2-x1), round3 (y2-y1)) recovers the original box up to
3-decimal rounding of w and h, for non-negative w and h: over exact
rationals the differences cancel, so the output is exactly
(x, y, round3 w, round3 h). -/
theorem bbox_roundtrip (r : AnnotationRecord) (p : PoseResult) (frameId : Int)
    (hw : 0 ≤ r.bbox.w) (hh : 0 ≤ r.bbox.h)
    (hp : p.bbox = (normalizePerson r).bbox) :
    (mkPersonOutput frameId p).bbox =
      [r.bbox.x, r.bbox.y, round3 r.bbox.w, round3 r.bbox.h] := by
  have hb : (mkPersonOutput frameId p).bbox =
      [p.bbox.x1, p.bbox.y1,
       round3 (p.bbox.x2 - p.bbox.x1), round3 (p.bbox.y2 - p.bbox.y1)] := rfl
  rw [hb, hp]
  have hx : (normalizePerson r).bbox.x2 - (normalizePerson r).bbox.x1 = r.bbox.w := by
    simp [normalizePerson]
  have hy : (normalizePerson r).bbox.y2 - (normalizePerson r).bbox.y1 = r.bbox.h := by
    simp [normalizePerson]
  rw [hx, hy]
  rfl

/-- Concrete record for the C6 witness: bbox (10, 20, 30, 40). -/
def roundtripRec : AnnotationRecord :=
  { category_id := 1, bbox := { x := 10, y := 20, w := 30, h := 40 },
    frame_id := some 0, image_id := none, track_id := some 5,
    occluded := none, activity := none, attributes := none,
    keypoints := none }

/-- Concrete pose result for the C6 witness: the identity pose stage
handing back the correlator's bbox (10, 20, 40, 60, 1). -/
def roundtripPose : PoseResult :=
  { track_id := 5, category_id := 1,
    bbox := { x1 := 10, y1 := 20, x2 := 10 + 30, y2 := 20 + 40, score := 1 },
    keypoints := [], occluded := none, activity := none }

/-- Witness for C6 at the concrete box (10, 20, 30, 40): the identity
pose stage hands back (10, 20, 40, 60) and the encoder reconstructs
(10, 20, round3 30, round3 40). -/
theorem bbox_roundtrip_witness :
    (0 : ℚ) ≤ roundtripRec.bbox.w ∧ (0 : ℚ) ≤ roundtripRec.bbox.h ∧
    (mkPersonOutput 0 roundtripPose).bbox = [10, 20, round3 30, round3 40] :=
  ⟨by norm_num [roundtripRec], by norm_num [roundtripRec],
   bbox_roundtrip roundtripRec roundtripPose 0
     (by norm_num [roundtripRec]) (by norm_num [roundtripRec]) rfl⟩

/-- C9: in the non-person passthrough, a record lacking a direct
frame_id takes its output frame id from the nested attributes.image_id
WITHOUT the minus-one adjustment, while the person path resolves a
record carrying only an image_id to image_id minus one. -/
theorem passthrough_image_id_unadjusted (r : AnnotationRecord)
    (a : Attributes) (v : Int) (d : PassAnn)
    (hf : r.frame_id = none) (ha : r.attributes = some a)
    (hv : a.image_id = some v) (hok : mkPassAnn r = Except.ok d) :
    d.frame_id = v ∧
    (∀ r2 : AnnotationRecord, ∀ i, r2.frame_id = none → r2.image_id = some i →
      resolveFrameIndex r2 = some (i - 1)) := by
  constructor
  · have hpf : passFrameId r = some v := by
      simp [passFrameId, hf, ha, hv]
    unfold mkPassAnn at hok
    rw [hpf] at hok
    cases htr : passTrackId r with
    | none => rw [htr] at hok; exact absurd hok (by simp)
    | some t =>
      rw [htr] at hok
      cases hok
      rfl
  · intro r2 i hf2 hi2
    simp [resolveFrameIndex, hf2, hi2]

/-- Concrete nested attributes for the C9 witness. -/
def passAttrs : Attributes :=
  { track_id := some 2, image_id := some 4, occluded := none,
    activity := none }

/-- Concrete non-person record for the C9 witness: no direct frame_id,
only attributes.image_id = 4. -/
def passRec : AnnotationRecord :=
  { category_id := 3, bbox := { x := 1, y := 2, w := 3, h := 4 },
    frame_id := none, image_id := none, track_id := none,
    occluded := none, activity := none, attributes := some passAttrs,
    keypoints := none }

/-- Passthrough output of passRec. -/
def passOut : PassAnn :=
  { track_id := 2, frame_id := 4, bbox := { x := 1, y := 2, w := 3, h := 4 },
    occluded := 0, category_id := 3 }

/-- Witness for C9: the concrete record passes through with frame id 4
taken verbatim from attributes.image_id (not 3). -/
theorem passthrough_image_id_unadjusted_witness :
    mkPassAnn passRec = Except.ok passOut ∧ passOut.frame_id = 4 :=
  ⟨rfl,
   (passthrough_image_id_unadjusted passRec passAttrs 4 passOut
     rfl rfl rfl rfl).1⟩

/-- C10: the flat keypoint list is regrouped into consecutive
(x, y, confidence) triples, taking exactly length / 3 of them (floor
division); the flattened triples give back the first 3 * (length / 3)
elements, so the one or two trailing leftovers of a list whose length is
not a multiple of 3 are silently dropped, and the function is total (no
error on any input). -/
theorem threewise_floor_drop : ∀ l : List ℚ,
    (threewise l).length = l.length / 3 ∧
    flattenTriples (threewise l) = l.take (3 * (l.length / 3))
  | [] => by simp [threewise, flattenTriples]
  | [a] => by simp [threewise, flattenTriples]
  | [a, b] => by simp [threewise, flattenTriples]
  | a :: b :: c :: rest => by
    have ih := threewise_floor_drop rest
    have hdiv : (rest.length + 3) / 3 = rest.length / 3 + 1 := by omega
    constructor
    · simp only [threewise, List.length_cons, hdiv, ih.1]
    · have htake : 3 * ((rest.length + 3) / 3) = 3 * (rest.length / 3) + 3 := by omega
      simp only [threewise, flattenTriples, List.flatMap_cons, List.length_cons]
      rw [show rest.length + 1 + 1 + 1 = rest.length + 3 by omega, htake]
      simp only [List.take_succ_cons, List.cons_append, List.nil_append]
      have := ih.2
      simp only [flattenTriples] at this
      rw [this]

/-- Concrete person record with no occluded and no activity field,
direct or nested, used for C8. -/
def bareRec : AnnotationRecord :=
  { category_id := 1, bbox := { x := 0, y := 0, w := 1, h := 1 },
    frame_id := some 0, image_id := none, track_id := some 3,
    occluded := none, activity := none, attributes := none,
    keypoints := none }

/-- C8 counterexample: normalizing a record with no occluded field
anywhere yields a person observation whose occluded key is ABSENT
(none), not the claimed default 0 (nor 1): the correlator applies no
default, the 0 default only appears later in the Result Encoder. -/
theorem person_obs_occluded_absent :
    (normalizePerson bareRec).occluded = none ∧
    (normalizePerson bareRec).occluded ≠ some 0 ∧
    (normalizePerson bareRec).occluded ≠ some 1 := by
  refine ⟨rfl, by decide, by decide⟩

/-- Concrete pose result with no occluded key, used for C8. -/
def bareOcclPose : PoseResult :=
  { track_id := 3, category_id := 1,
    bbox := { x1 := 0, y1 := 0, x2 := 1, y2 := 1, score := 1 },
    keypoints := [], occluded := none, activity := none }

/-- C8 amended: when neither a direct occluded field nor a nested
attributes.occluded field is present, the person observation carries no
occluded key at all (the default 0 is applied only later, by the Result
Encoder on pose results); the activity field does default to the empty
string when absent everywhere. -/
theorem person_obs_defaults (r : AnnotationRecord) :
    (r.occluded = none → r.attributes.bind (fun a => a.occluded) = none →
      (normalizePerson r).occluded = none) ∧
    (r.activity = none → r.attributes.bind (fun a => a.activity) = none →
      (normalizePerson r).activity = "") ∧
    (∀ (frameId : Int) (p : PoseResult), p.occluded = none →
      (mkPersonOutput frameId p).occluded = 0) := by
  refine ⟨?_, ?_, ?_⟩
  · intro h1 h2
    simp [normalizePerson, h1, h2]
  · intro h1 h2
    simp [normalizePerson, h1, h2]
  · intro frameId p hp
    simp [mkPersonOutput, hp]

/-- Witness for the amended C8 at the concrete record and pose result
with every occluded and activity source absent. -/
theorem person_obs_defaults_witness :
    (normalizePerson bareRec).occluded = none ∧
    (normalizePerson bareRec).activity = "" ∧
    (mkPersonOutput 0 bareOcclPose).occluded = 0 :=
  ⟨(person_obs_defaults bareRec).1 rfl rfl,
   (person_obs_defaults bareRec).2.1 rfl rfl,
   (person_obs_defaults bareRec).2.2 0 bareOcclPose rfl⟩

/-- Unfolding step of the category scan. -/
theorem scanPersonId_cons (c : Category) (rest : List Category)
    (acc : Option Int) :
    scanPersonId (c :: rest) acc =
      scanPersonId rest (if c.name = "person" then some c.id else acc) := rfl

/-- The category scan never unbinds a bound accumulator. -/
theorem scanPersonId_isSome_of_acc : ∀ (cats : List Category) (acc : Option Int),
    acc.isSome = true → (scanPersonId cats acc).isSome = true
  | [], _, h => h
  | c :: rest, acc, h => by
    rw [scanPersonId_cons]
    apply scanPersonId_isSome_of_acc
    by_cases hc : c.name = "person" <;> simp [hc, h]

/-- The category scan binds the accumulator when some category is named
"person". -/
theorem scanPersonId_isSome_of_mem : ∀ (cats : List Category) (acc : Option Int),
    (∃ c ∈ cats, c.name = "person") → (scanPersonId cats acc).isSome = true
  | [], _, h => by simp at h
  | c :: rest, acc, h => by
    rw [scanPersonId_cons]
    by_cases hc : c.name = "person"
    · apply scanPersonId_isSome_of_acc
      simp [hc]
    · obtain ⟨d, hd, hdn⟩ := h
      rw [List.mem_cons] at hd
      rcases hd with rfl | hd
      · exact absurd hdn hc
      · exact scanPersonId_isSome_of_mem rest _ ⟨d, hd, hdn⟩

/-- The category scan is the identity when no category is named
"person". -/
theorem scanPersonId_no_person : ∀ (cats : List Category) (acc : Option Int),
    (∀ c ∈ cats, c.name ≠ "person") → scanPersonId cats acc = acc
  | [], _, _ => rfl
  | c :: rest, acc, h => by
    rw [scanPersonId_cons, if_neg (h c (List.mem_cons_self c rest))]
    exact scanPersonId_no_person rest acc
      (fun d hd => h d (List.mem_cons_of_mem c hd))

/-- With no "person" category the per-annotation rescans all collapse to
the identity. -/
theorem resolve_fold_no_person (cats : List Category)
    (h : ∀ c ∈ cats, c.name ≠ "person") :
    ∀ (l : List AnnotationRecord) (acc : Option Int),
      l.foldl (fun a _ => scanPersonId cats a) acc = acc
  | [], _ => rfl
  | _ :: rest, acc => by
    simp only [List.foldl_cons]
    rw [scanPersonId_no_person cats acc h]
    exact resolve_fold_no_person cats h rest acc

/-- With a "person" category present, any nonempty annotations list
leaves the accumulator bound. -/
theorem resolve_fold_isSome (cats : List Category)
    (h : ∃ c ∈ cats, c.name = "person") :
    ∀ (l : List AnnotationRecord) (acc : Option Int), l ≠ [] →
      (l.foldl (fun a _ => scanPersonId cats a) acc).isSome = true
  | [], _, hne => absurd rfl hne
  | _ :: rest, acc, _ => by
    simp only [List.foldl_cons]
    by_cases hrest : rest = []
    · subst hrest
      simp only [List.foldl_nil]
      exact scanPersonId_isSome_of_mem cats acc h
    · exact resolve_fold_isSome cats h rest _ hrest

/-- Concrete document for C4: it has a "person" category but an empty
annotations list. -/
def emptyAnnDoc : Document :=
  { categories := [{ id := 1, name := "person" }], annotations := [] }

/-- C4 counterexample: resolution iterates the ANNOTATIONS list, so a
document with a "person" category but an empty annotations list never
binds this_person_cat_id — resolution does not succeed even though the
categories list contains a "person" entry. -/
theorem person_category_unresolved_on_empty :
    (∃ c ∈ emptyAnnDoc.categories, c.name = "person") ∧
    resolvePersonCategoryId emptyAnnDoc = none :=
  ⟨⟨{ id := 1, name := "person" }, by simp [emptyAnnDoc], rfl⟩, rfl⟩

/-- C4 amended: when the annotations list is nonempty, the person
category id resolves exactly when the categories list contains an entry
named "person", and when it does not resolve, the non-person passthrough
(which runs before the frame loop) aborts with an unbound-variable
error on its first record. -/
theorem person_category_resolution (doc : Document)
    (h : doc.annotations ≠ []) :
    ((resolvePersonCategoryId doc).isSome = true ↔
      ∃ c ∈ doc.categories, c.name = "person") ∧
    (resolvePersonCategoryId doc = none →
      passthroughLoop (resolvePersonCategoryId doc) doc.annotations =
        Except.error ()) := by
  constructor
  · constructor
    · intro hs
      by_contra hno
      push_neg at hno
      have hid := resolve_fold_no_person doc.categories hno doc.annotations none
      unfold resolvePersonCategoryId at hs
      rw [hid] at hs
      simp at hs
    · intro hex
      exact resolve_fold_isSome doc.categories hex doc.annotations none h
  · intro hnone
    rw [hnone]
    cases hann : doc.annotations with
    | nil => exact absurd hann h
    | cons r rest => rfl

/-- Concrete document for the C4 witness: one person annotation, one
person category. -/
def onePersonDoc : Document :=
  { categories := [{ id := 1, name := "person" }],
    annotations :=
      [{ category_id := 1, bbox := { x := 0, y := 0, w := 1, h := 1 },
         frame_id := some 0, image_id := none, track_id := some 1,
         occluded := none, activity := none, attributes := none,
         keypoints := none }] }

/-- Witness for the amended C4 at a document with one annotation: the
person category id resolves. -/
theorem person_category_resolution_witness :
    onePersonDoc.annotations ≠ [] ∧
    ((resolvePersonCategoryId onePersonDoc).isSome = true ↔
      ∃ c ∈ onePersonDoc.categories, c.name = "person") :=
  ⟨by simp [onePersonDoc],
   (person_category_resolution onePersonDoc (by simp [onePersonDoc])).1⟩

/-- Concrete person pose result for C1. -/
def posePerson : PoseResult :=
  { track_id := 5, category_id := 1,
    bbox := { x1 := 1, y1 := 2, x2 := 3, y2 := 4, score := 1 },
    keypoints := [], occluded := none, activity := none }

/-- Concrete non-person pose result for C1. -/
def poseOther : PoseResult :=
  { track_id := 6, category_id := 2,
    bbox := { x1 := 5, y1 := 6, x2 := 7, y2 := 8, score := 1 },
    keypoints := [], occluded := none, activity := none }

/-- C1, evaluated at the failing inputs: the append on line 257 sits
outside the category_id == 1 guard, so a frame whose pose results hold
one person and one non-person entry appends TWO annotations (the second
a stale duplicate of the person one) although only one result has
category_id == 1; a frame whose only result is non-person (with no
previously bound dict_obj) crashes with UnboundLocalError; an empty
result list does append nothing without error, as the claim states. -/
theorem encoder_append_outside_guard :
    ([posePerson, poseOther].filter
      (fun p => decide (p.category_id = 1))).length = 1 ∧
    encodeFrame 0 [posePerson, poseOther] =
      Except.ok [mkPersonOutput 0 posePerson, mkPersonOutput 0 posePerson] ∧
    encodeFrame 0 [poseOther] = Except.error () ∧
    encodeFrame 0 [] = Except.ok ([] : List OutputAnn) :=
  ⟨rfl, rfl, rfl, rfl⟩

/-- Concrete person record carrying frame_id = 0, used for C3. -/
def frameRec : AnnotationRecord :=
  { category_id := 1, bbox := { x := 0, y := 0, w := 1, h := 1 },
    frame_id := some 0, image_id := none, track_id := some 1,
    occluded := none, activity := none, attributes := none,
    keypoints := none }

/-- Concrete person record with NO frame-index field, used for C3. -/
def noFrameRec : AnnotationRecord :=
  { category_id := 1, bbox := { x := 0, y := 0, w := 2, h := 2 },
    frame_id := none, image_id := none, track_id := some 2,
    occluded := none, activity := none, attributes := none,
    keypoints := none }

/-- C3, evaluated at the failing inputs: a record with neither frame_id
nor image_id is NOT skipped — frame_json_id keeps its stale value from
the previous record, so the record is correlated into the previous
record's frame and contributes a person observation there; and when such
a record comes first, reading the never-assigned frame_json_id aborts
the run (NameError). -/
theorem missing_frame_field_not_skipped :
    selectPersonObs 1 0 [frameRec, noFrameRec] =
      Except.ok [normalizePerson frameRec, normalizePerson noFrameRec] ∧
    selectPersonObs 1 0 [noFrameRec] = Except.error () :=
  ⟨rfl, rfl⟩

end PoseTrack
